import Mathlib

/-!
Verification of the garbage-collected heap coordinator (`vm/alloc/Heap.c`)
of the Dalvik virtual machine, against its natural-language specification.

The file shallowly embeds the functions of `Heap.c`.  External collaborators
(the heap source, the mark-sweep engine, the thread registry, the card
table) are modelled as oracle interfaces: records of state-transforming
functions over an abstract state type.  The embedded functions additionally
emit an event trace recording the calls they make, so that ordering claims
can be stated about the trace.
-/

namespace Dalvik

/-- Pointers are modelled as natural numbers (machine addresses); `0` is
`NULL`.  Fallible allocation returns `Option Nat`, with `none` for `NULL`. -/
abbrev Ptr := Nat

/-! ## The allocation ladder (`tryMalloc`, Heap.c lines 237-332) -/

/-- One observable action of `tryMalloc`: an attempt of `dvmHeapSourceAlloc`
(with its success bit), a call to `dvmWaitForConcurrentGcToComplete`, a call
to `gcForMalloc` (i.e. `dvmCollectGarbageInternal(clearSoft, GC_FOR_MALLOC)`)
with its `clearSoftReferences` argument, or an attempt of
`dvmHeapSourceAllocAndGrow`. -/
inductive AllocEvent where
  | alloc (size : Nat) (ok : Bool)
  | waitConcurrent
  | gcForMalloc (clearSoft : Bool)
  | allocAndGrow (size : Nat) (ok : Bool)
deriving DecidableEq, Repr

/-- Oracle interface for the collaborators `tryMalloc` calls, over an
abstract collaborator state `σ`:
`alloc` is `dvmHeapSourceAlloc`, `allocAndGrow` is
`dvmHeapSourceAllocAndGrow`, `gcForMalloc` is the local wrapper running
`dvmCollectGarbageInternal(clearSoft, GC_FOR_MALLOC)`, `waitConcurrent` is
`dvmWaitForConcurrentGcToComplete`, and `gcRunning` reads
`gDvm.gcHeap->gcRunning`. -/
structure HeapSrc (σ : Type) where
  alloc : σ → Nat → Option Ptr × σ
  allocAndGrow : σ → Nat → Option Ptr × σ
  gcForMalloc : σ → Bool → σ
  waitConcurrent : σ → σ
  gcRunning : σ → Bool

/-- The `collect_soft_refs:` label of `tryMalloc` (Heap.c lines 317-324):
run a GC that clears soft references, then retry `dvmHeapSourceAllocAndGrow`. -/
def collectSoftRefs {σ : Type} (hs : HeapSrc σ) (s : σ) (size : Nat) :
    Option Ptr × σ × List AllocEvent :=
  let s1 := hs.gcForMalloc s true
  match hs.allocAndGrow s1 size with
  | (some ptr, s2) =>
      (some ptr, s2, [AllocEvent.gcForMalloc true, AllocEvent.allocAndGrow size true])
  | (none, s2) =>
      (none, s2, [AllocEvent.gcForMalloc true, AllocEvent.allocAndGrow size false])

/-- The tail of `tryMalloc` after the fast path and the optional wait for a
concurrent GC have failed (Heap.c lines 287-331): foreground GC without
clearing soft references, retry `alloc`, then `allocAndGrow`, then fall
through to `collect_soft_refs`.  `pre` is the trace accumulated so far. -/
def tryMallocSlowPath {σ : Type} (hs : HeapSrc σ) (s : σ) (size : Nat)
    (pre : List AllocEvent) : Option Ptr × σ × List AllocEvent :=
  let s1 := hs.gcForMalloc s false
  match hs.alloc s1 size with
  | (some ptr, s2) =>
      (some ptr, s2, pre ++ [AllocEvent.gcForMalloc false, AllocEvent.alloc size true])
  | (none, s2) =>
    match hs.allocAndGrow s2 size with
    | (some ptr, s3) =>
        (some ptr, s3,
         pre ++ [AllocEvent.gcForMalloc false, AllocEvent.alloc size false,
                 AllocEvent.allocAndGrow size true])
    | (none, s3) =>
      let (r, s4, evs) := collectSoftRefs hs s3 size
      (r, s4,
       pre ++ [AllocEvent.gcForMalloc false, AllocEvent.alloc size false,
               AllocEvent.allocAndGrow size false] ++ evs)

/-- `tryMalloc` (Heap.c lines 237-332).  `growthLimit` is
`gDvm.heapGrowthLimit`.  Sizes at or above the growth limit jump straight to
the `collect_soft_refs:` label; otherwise the ladder is: fast-path `alloc`;
if `gcRunning`, wait for the concurrent GC and retry `alloc`; foreground GC
and retry `alloc`; `allocAndGrow`; soft-reference GC and retry
`allocAndGrow`.  Returns the pointer (or `none`), the final collaborator
state, and the trace of calls made. -/
def tryMalloc {σ : Type} (hs : HeapSrc σ) (growthLimit : Nat) (s : σ) (size : Nat) :
    Option Ptr × σ × List AllocEvent :=
  if growthLimit ≤ size then
    collectSoftRefs hs s size
  else
    match hs.alloc s size with
    | (some ptr, s1) => (some ptr, s1, [AllocEvent.alloc size true])
    | (none, s1) =>
      if hs.gcRunning s1 then
        let s2 := hs.waitConcurrent s1
        match hs.alloc s2 size with
        | (some ptr, s3) =>
            (some ptr, s3,
             [AllocEvent.alloc size false, AllocEvent.waitConcurrent,
              AllocEvent.alloc size true])
        | (none, s3) =>
            tryMallocSlowPath hs s3 size
              [AllocEvent.alloc size false, AllocEvent.waitConcurrent,
               AllocEvent.alloc size false]
      else
        tryMallocSlowPath hs s1 size [AllocEvent.alloc size false]

/-- Restatement of the five-step allocation ladder in the words of the
specification (§4.3), for sizes below the growth limit: the result is the
first non-null outcome of (1) `alloc`; (2) if the GC is running, wait for it
and retry `alloc`; (3) foreground GC with `clearSoftRefs = false` and retry
`alloc`; (4) `allocAndGrow`; (5) GC with `clearSoftRefs = true` and retry
`allocAndGrow`; `none` only after all five have failed. -/
def tryAllocSpec {σ : Type} (hs : HeapSrc σ) (s : σ) (size : Nat) : Option Ptr :=
  match hs.alloc s size with
  | (some ptr, _) => some ptr
  | (none, s1) =>
    let (r2, s2) :=
      if hs.gcRunning s1 then hs.alloc (hs.waitConcurrent s1) size
      else (none, s1)
    match r2 with
    | some ptr => some ptr
    | none =>
      let s3 := hs.gcForMalloc s2 false
      match hs.alloc s3 size with
      | (some ptr, _) => some ptr
      | (none, s4) =>
        match hs.allocAndGrow s4 size with
        | (some ptr, _) => some ptr
        | (none, s5) =>
          let s6 := hs.gcForMalloc s5 true
          (hs.allocAndGrow s6 size).1

/-- The event trace of a run of `tryMalloc` in which every step below the
growth limit was attempted and failed: the fast-path `alloc`, the optional
wait-and-retry (taken exactly when the GC was running after the first failed
`alloc`), the foreground GC with its retry, the first `allocAndGrow`, and
the soft-reference GC with its `allocAndGrow` retry. -/
def fullFailTrace {σ : Type} (hs : HeapSrc σ) (s : σ) (size : Nat) : List AllocEvent :=
  [AllocEvent.alloc size false] ++
  (if hs.gcRunning (hs.alloc s size).2 then
    [AllocEvent.waitConcurrent, AllocEvent.alloc size false]
  else []) ++
  [AllocEvent.gcForMalloc false, AllocEvent.alloc size false,
   AllocEvent.allocAndGrow size false, AllocEvent.gcForMalloc true,
   AllocEvent.allocAndGrow size false]

/-- `alloc` oracle of the demo heap source: succeeds once the call counter
reaches 5, returning a superficially aligned address. -/
def demoAlloc (s size : Nat) : Option Ptr × Nat :=
  (if 5 ≤ s then some (8 * (size + 1)) else none, s + 1)

/-- `allocAndGrow` oracle of the demo heap source: succeeds once the call
counter reaches 3. -/
def demoAllocAndGrow (s size : Nat) : Option Ptr × Nat :=
  (if 3 ≤ s then some (8 * (size + 2)) else none, s + 1)

/-- A concrete heap-source oracle over state `σ := Nat` (a call counter),
used to exercise the embedded functions on closed inputs: `alloc` succeeds
once the counter reaches 5, `allocAndGrow` once it reaches 3, and the
concurrent GC is running exactly when the counter is 1. -/
def demoHeapSrc : HeapSrc Nat where
  alloc := demoAlloc
  allocAndGrow := demoAllocAndGrow
  gcForMalloc := fun s _ => s + 1
  waitConcurrent := fun s => s + 2
  gcRunning := fun s => s == 1

/-- A heap-source oracle on which every allocation attempt fails and the
concurrent GC is never observed running. -/
def failingHeapSrc : HeapSrc Nat where
  alloc := fun s _ => (none, s + 1)
  allocAndGrow := fun s _ => (none, s + 1)
  gcForMalloc := fun s _ => s + 1
  waitConcurrent := fun s => s + 2
  gcRunning := fun _ => false

theorem tryMalloc_below_limit {σ : Type} (hs : HeapSrc σ) (growthLimit : Nat)
    (s : σ) (size : Nat) (h : size < growthLimit) :
    (tryMalloc hs growthLimit s size).1 = tryAllocSpec hs s size ∧
    ((tryMalloc hs growthLimit s size).1 = none →
      (tryMalloc hs growthLimit s size).2.2 = fullFailTrace hs s size) ∧
    (tryMalloc hs growthLimit s size).2.2.head? =
      some (AllocEvent.alloc size (hs.alloc s size).1.isSome) := by
  have hlt : ¬ growthLimit ≤ size := Nat.not_le.mpr h
  simp only [tryMalloc, tryAllocSpec, fullFailTrace, tryMallocSlowPath,
    collectSoftRefs, if_neg hlt]
  rcases h1 : hs.alloc s size with ⟨r1, s1⟩
  cases r1 with
  | some p1 => simp [h1]
  | none =>
    by_cases hg : hs.gcRunning s1
    · rcases h2 : hs.alloc (hs.waitConcurrent s1) size with ⟨r2, s2⟩
      cases r2 with
      | some p2 => simp [h1, hg, h2]
      | none =>
        rcases h3 : hs.alloc (hs.gcForMalloc s2 false) size with ⟨r3, s3⟩
        cases r3 with
        | some p3 => simp [h1, hg, h2, h3]
        | none =>
          rcases h4 : hs.allocAndGrow s3 size with ⟨r4, s4⟩
          cases r4 with
          | some p4 => simp [h1, hg, h2, h3, h4]
          | none =>
            rcases h5 : hs.allocAndGrow (hs.gcForMalloc s4 true) size with ⟨r5, s5⟩
            cases r5 with
            | some p5 => simp [h1, hg, h2, h3, h4, h5]
            | none => simp [h1, hg, h2, h3, h4, h5]
    · rcases h3 : hs.alloc (hs.gcForMalloc s1 false) size with ⟨r3, s3⟩
      cases r3 with
      | some p3 => simp [h1, hg, h3]
      | none =>
        rcases h4 : hs.allocAndGrow s3 size with ⟨r4, s4⟩
        cases r4 with
        | some p4 => simp [h1, hg, h3, h4]
        | none =>
          rcases h5 : hs.allocAndGrow (hs.gcForMalloc s4 true) size with ⟨r5, s5⟩
          cases r5 with
          | some p5 => simp [h1, hg, h3, h4, h5]
          | none => simp [h1, hg, h3, h4, h5]

/-- C1: for every requested size below the growth limit, `tryMalloc` returns
the first non-null result of: (1) `alloc`; (2) if the GC-running flag is
set, wait for the concurrent GC and retry `alloc`; (3) foreground GC with
`clearSoftRefs = false` and retry `alloc`; (4) `allocAndGrow`; (5) GC with
`clearSoftRefs = true` and retry `allocAndGrow` — tried strictly in this
order — and returns null only after all of these have failed (witnessed by
the full failure trace). -/
theorem tryMalloc_ladder {σ : Type} (hs : HeapSrc σ) (growthLimit : Nat)
    (s : σ) (size : Nat) (h : size < growthLimit) :
    (tryMalloc hs growthLimit s size).1 = tryAllocSpec hs s size ∧
    ((tryMalloc hs growthLimit s size).1 = none →
      (tryMalloc hs growthLimit s size).2.2 = fullFailTrace hs s size) :=
  ⟨(tryMalloc_below_limit hs growthLimit s size h).1,
   (tryMalloc_below_limit hs growthLimit s size h).2.1⟩

theorem tryMalloc_ladder_witness :
    (3 : Nat) < 100 ∧
    ((tryMalloc demoHeapSrc 100 0 3).1 = tryAllocSpec demoHeapSrc 0 3 ∧
     ((tryMalloc demoHeapSrc 100 0 3).1 = none →
       (tryMalloc demoHeapSrc 100 0 3).2.2 = fullFailTrace demoHeapSrc 0 3)) :=
  ⟨by decide, tryMalloc_ladder demoHeapSrc 100 0 3 (by decide)⟩

/-- C2: for every size at or above the growth limit, `tryMalloc` performs no
fast-path `alloc`, no concurrent-GC wait, no foreground GC and no first
`allocAndGrow`, but goes directly to the soft-reference-clearing GC followed
by `allocAndGrow` (its whole run is `collectSoftRefs`, and its trace is
exactly those two events); for size equal to `growthLimit - 1` the full
five-step ladder is attempted: the run starts with the fast-path `alloc`
attempt and, when everything fails, the trace is the full five-step failure
trace. -/
theorem tryMalloc_growth_limit_bypass {σ : Type} (hs : HeapSrc σ)
    (growthLimit : Nat) (s : σ) :
    (∀ size, growthLimit ≤ size →
      tryMalloc hs growthLimit s size = collectSoftRefs hs s size ∧
      (tryMalloc hs growthLimit s size).2.2 =
        [AllocEvent.gcForMalloc true,
         AllocEvent.allocAndGrow size
           (hs.allocAndGrow (hs.gcForMalloc s true) size).1.isSome]) ∧
    (0 < growthLimit →
      (tryMalloc hs growthLimit s (growthLimit - 1)).2.2.head? =
        some (AllocEvent.alloc (growthLimit - 1)
          (hs.alloc s (growthLimit - 1)).1.isSome) ∧
      ((tryMalloc hs growthLimit s (growthLimit - 1)).1 = none →
        (tryMalloc hs growthLimit s (growthLimit - 1)).2.2 =
          fullFailTrace hs s (growthLimit - 1))) := by
  constructor
  · intro size hge
    constructor
    · simp only [tryMalloc, if_pos hge]
    · simp only [tryMalloc, if_pos hge, collectSoftRefs]
      rcases h5 : hs.allocAndGrow (hs.gcForMalloc s true) size with ⟨r5, s5⟩
      cases r5 with
      | some p5 => simp
      | none => simp
  · intro hpos
    have h : growthLimit - 1 < growthLimit := Nat.sub_lt hpos Nat.one_pos
    exact ⟨(tryMalloc_below_limit hs growthLimit s (growthLimit - 1) h).2.2,
           (tryMalloc_below_limit hs growthLimit s (growthLimit - 1) h).2.1⟩

theorem tryMalloc_growth_limit_bypass_witness :
    ((100 : Nat) ≤ 150 ∧
      (tryMalloc demoHeapSrc 100 0 150 = collectSoftRefs demoHeapSrc 0 150 ∧
       (tryMalloc demoHeapSrc 100 0 150).2.2 =
         [AllocEvent.gcForMalloc true,
          AllocEvent.allocAndGrow 150
            (demoHeapSrc.allocAndGrow (demoHeapSrc.gcForMalloc 0 true) 150).1.isSome])) ∧
    ((0 : Nat) < 100 ∧
      (tryMalloc demoHeapSrc 100 0 99).2.2.head? =
        some (AllocEvent.alloc 99 (demoHeapSrc.alloc 0 99).1.isSome)) :=
  ⟨⟨by decide, (tryMalloc_growth_limit_bypass demoHeapSrc 100 0).1 150 (by decide)⟩,
   ⟨by decide, ((tryMalloc_growth_limit_bypass demoHeapSrc 100 0).2 (by decide)).1⟩⟩

/-! ## The heap-worker hand-off queue (`dvmGetNextHeapWorkerObject`,
Heap.c lines 184-214) -/

/-- The two operations a dequeued worker object can carry
(`HeapWorkerOperation`): a user-visible reference enqueue, or a
finalization. -/
inductive HeapWorkerOperation where
  | workerEnqueue
  | workerFinalize
deriving DecidableEq, Repr

/-- The state touched by `dvmGetNextHeapWorkerObject`: the two worker
FIFOs of `GcHeap` (`referenceOperations` and `pendingFinalizationRefs`) and
the tracked-allocation set (modelled as the list maintained by
`dvmAddTrackedAlloc`). -/
structure WorkerState where
  referenceOperations : List Ptr
  pendingFinalizationRefs : List Ptr
  trackedAllocs : List Ptr
deriving DecidableEq, Repr

/-- Modelled from the spec: `dvmHeapGetNextObjectFromLargeTable`
(`alloc/HeapTable.c`, not part of the sources here).  The spec (§2, §4.2)
describes the two worker queues as FIFOs drained by the worker, so the
table is modelled as a list: dequeue the head, or return null when the
table is empty. -/
def dvmHeapGetNextObjectFromLargeTable (table : List Ptr) :
    Option Ptr × List Ptr :=
  match table with
  | [] => (none, [])
  | obj :: rest => (some obj, rest)

/-- Modelled from the spec: `dvmAddTrackedAlloc` (`alloc/Alloc.c`, not part
of the sources here) adds an object to the caller's tracked-allocation set,
preventing its collection; modelled as consing onto the tracked list. -/
def dvmAddTrackedAlloc (obj : Ptr) (tracked : List Ptr) : List Ptr :=
  obj :: tracked

/-- `dvmGetNextHeapWorkerObject` (Heap.c lines 184-214).  `op` is the value
behind the caller's `HeapWorkerOperation *op` pointer on entry; the second
component of the result is its value on exit (the source writes `*op` only
when it dequeues an object).  Dequeues from `referenceOperations` first
(op = `WORKER_ENQUEUE`), else from `pendingFinalizationRefs`
(op = `WORKER_FINALIZE`); a non-null object is added to the
tracked-allocation set before returning. -/
def dvmGetNextHeapWorkerObject (st : WorkerState) (op : HeapWorkerOperation) :
    Option Ptr × HeapWorkerOperation × WorkerState :=
  match dvmHeapGetNextObjectFromLargeTable st.referenceOperations with
  | (some obj, rest) =>
      (some obj, HeapWorkerOperation.workerEnqueue,
       { st with referenceOperations := rest,
                 trackedAllocs := dvmAddTrackedAlloc obj st.trackedAllocs })
  | (none, _) =>
    match dvmHeapGetNextObjectFromLargeTable st.pendingFinalizationRefs with
    | (some obj, rest) =>
        (some obj, HeapWorkerOperation.workerFinalize,
         { st with pendingFinalizationRefs := rest,
                   trackedAllocs := dvmAddTrackedAlloc obj st.trackedAllocs })
    | (none, _) => (none, op, st)

/-- C4: `dvmGetNextHeapWorkerObject` dequeues from `referenceOperations`
with op = `WORKER_ENQUEUE` whenever that queue is non-empty; it dequeues
from `pendingFinalizationRefs` with op = `WORKER_FINALIZE` only when
`referenceOperations` is empty (in particular, whenever it returns a
finalize, no enqueue was pending); and every non-null returned object is in
the tracked-allocation set of the returned state.  Hence when an enqueue
and a finalize are both pending for the same object, the enqueue is
returned strictly first. -/
theorem getNextHeapWorkerObject_order (st : WorkerState) (op : HeapWorkerOperation) :
    (∀ obj rest, st.referenceOperations = obj :: rest →
      dvmGetNextHeapWorkerObject st op =
        (some obj, HeapWorkerOperation.workerEnqueue,
         { st with referenceOperations := rest,
                   trackedAllocs := obj :: st.trackedAllocs })) ∧
    (st.referenceOperations = [] →
      ∀ obj rest, st.pendingFinalizationRefs = obj :: rest →
        dvmGetNextHeapWorkerObject st op =
          (some obj, HeapWorkerOperation.workerFinalize,
           { st with pendingFinalizationRefs := rest,
                     trackedAllocs := obj :: st.trackedAllocs })) ∧
    (∀ obj op2 st2, dvmGetNextHeapWorkerObject st op = (some obj, op2, st2) →
      obj ∈ st2.trackedAllocs) ∧
    (∀ obj op2 st2, dvmGetNextHeapWorkerObject st op = (some obj, op2, st2) →
      op2 = HeapWorkerOperation.workerFinalize →
      st.referenceOperations = []) := by
  refine ⟨?_, ?_, ?_, ?_⟩
  · intro obj rest h
    simp [dvmGetNextHeapWorkerObject, dvmHeapGetNextObjectFromLargeTable,
      dvmAddTrackedAlloc, h]
  · intro h obj rest h2
    simp [dvmGetNextHeapWorkerObject, dvmHeapGetNextObjectFromLargeTable,
      dvmAddTrackedAlloc, h, h2]
  · intro obj op2 st2 h
    cases hr : st.referenceOperations with
    | cons o rest =>
      simp [dvmGetNextHeapWorkerObject, dvmHeapGetNextObjectFromLargeTable,
        dvmAddTrackedAlloc, hr] at h
      rcases h with ⟨h1, _, h3⟩
      subst h1
      rw [← h3]
      simp
    | nil =>
      cases hp : st.pendingFinalizationRefs with
      | cons o rest =>
        simp [dvmGetNextHeapWorkerObject, dvmHeapGetNextObjectFromLargeTable,
          dvmAddTrackedAlloc, hr, hp] at h
        rcases h with ⟨h1, _, h3⟩
        subst h1
        rw [← h3]
        simp
      | nil =>
        simp [dvmGetNextHeapWorkerObject, dvmHeapGetNextObjectFromLargeTable,
          hr, hp] at h
  · intro obj op2 st2 h hop
    cases hr : st.referenceOperations with
    | nil => rfl
    | cons o rest =>
      simp [dvmGetNextHeapWorkerObject, dvmHeapGetNextObjectFromLargeTable,
        dvmAddTrackedAlloc, hr, hop] at h

theorem getNextHeapWorkerObject_order_witness :
    WorkerState.referenceOperations ⟨[40], [40], []⟩ = [40] ∧
    dvmGetNextHeapWorkerObject ⟨[40], [40], []⟩ HeapWorkerOperation.workerEnqueue =
      (some 40, HeapWorkerOperation.workerEnqueue, ⟨[], [40], [40]⟩) :=
  ⟨by decide,
   (getNextHeapWorkerObject_order ⟨[40], [40], []⟩
      HeapWorkerOperation.workerEnqueue).1 40 [] (by decide)⟩

/-- C10: when both worker queues are empty, `dvmGetNextHeapWorkerObject`
returns null, leaves the caller's `op` output parameter unmodified, and
leaves the state (in particular the tracked-allocation set) unchanged. -/
theorem getNextHeapWorkerObject_empty (st : WorkerState) (op : HeapWorkerOperation)
    (h1 : st.referenceOperations = []) (h2 : st.pendingFinalizationRefs = []) :
    dvmGetNextHeapWorkerObject st op = (none, op, st) := by
  simp [dvmGetNextHeapWorkerObject, dvmHeapGetNextObjectFromLargeTable, h1, h2]

theorem getNextHeapWorkerObject_empty_witness :
    WorkerState.referenceOperations ⟨[], [], [7]⟩ = [] ∧
    WorkerState.pendingFinalizationRefs ⟨[], [], [7]⟩ = [] ∧
    dvmGetNextHeapWorkerObject ⟨[], [], [7]⟩ HeapWorkerOperation.workerFinalize =
      (none, HeapWorkerOperation.workerFinalize, ⟨[], [], [7]⟩) :=
  ⟨by decide, by decide,
   getNextHeapWorkerObject_empty ⟨[], [], [7]⟩ HeapWorkerOperation.workerFinalize
     (by decide) (by decide)⟩

/-! ## Object validity (`dvmIsValidObject`, Heap.c lines 481-502) -/

/-- `dvmIsValidObject` (Heap.c lines 481-502): true iff the pointer is
non-null, 8-byte aligned (`(uintptr_t)obj & (8-1) == 0`, i.e. `obj % 8 = 0`)
and contained in the heap source (`contains` is the
`dvmHeapSourceContains` oracle). -/
def dvmIsValidObject (contains : Ptr → Bool) (obj : Ptr) : Bool :=
  if obj ≠ 0 ∧ obj % 8 = 0 then contains obj else false

/-- C9: `dvmIsValidObject` returns false for a null pointer and for any
pointer that is not 8-byte aligned, in both cases without querying the heap
source (the result is false under every `contains` oracle); and it returns
true iff the pointer is non-null, 8-byte aligned, and reported as contained
by the heap source. -/
theorem isValidObject_characterization (contains : Ptr → Bool) (obj : Ptr) :
    (obj = 0 ∨ obj % 8 ≠ 0 →
      ∀ contains2 : Ptr → Bool, dvmIsValidObject contains2 obj = false) ∧
    (dvmIsValidObject contains obj = true ↔
      obj ≠ 0 ∧ obj % 8 = 0 ∧ contains obj = true) := by
  constructor
  · intro h contains2
    rcases h with h | h <;> simp [dvmIsValidObject, h]
  · by_cases h0 : obj = 0
    · simp [dvmIsValidObject, h0]
    · by_cases h8 : obj % 8 = 0
      · simp [dvmIsValidObject, h0, h8]
      · simp [dvmIsValidObject, h0, h8]

theorem isValidObject_characterization_witness :
    ((12 : Nat) = 0 ∨ (12 : Nat) % 8 ≠ 0) ∧
    dvmIsValidObject (fun _ => true) 12 = false := by
  refine ⟨by decide, ?_⟩
  exact (isValidObject_characterization (fun _ => true) 12).1 (by decide)
    (fun _ => true)

/-! ## Waiting for the concurrent GC (`dvmWaitForConcurrentGcToComplete`,
Heap.c lines 851-860) -/

/-- The `while (gDvm.gcHeap->gcRunning)` loop of
`dvmWaitForConcurrentGcToComplete`.  `gcRunningAt k` is the value of
`gcRunning` the thread observes at its `k`-th check of the flag (the value
after `k` wakeups from `dvmWaitCond`); each loop iteration changes status,
waits on `gDvm.gcHeapCond` and restores status.  `fuel` bounds the number
of observed wakeups so the model is total; `some k` means the call returned
after exactly `k` waits. -/
def waitForConcurrentGcLoop (gcRunningAt : Nat → Bool) : Nat → Nat → Option Nat
  | 0, _ => none
  | fuel + 1, k =>
    if gcRunningAt k then waitForConcurrentGcLoop gcRunningAt fuel (k + 1)
    else some k

/-- `dvmWaitForConcurrentGcToComplete` (Heap.c lines 851-860), entered at
observation index 0. -/
def dvmWaitForConcurrentGcToComplete (gcRunningAt : Nat → Bool) (fuel : Nat) :
    Option Nat :=
  waitForConcurrentGcLoop gcRunningAt fuel 0

theorem waitForConcurrentGcLoop_exit (gcRunningAt : Nat → Bool) :
    ∀ fuel start k, waitForConcurrentGcLoop gcRunningAt fuel start = some k →
      gcRunningAt k = false ∧ start ≤ k ∧
      ∀ j, start ≤ j → j < k → gcRunningAt j = true := by
  intro fuel
  induction fuel with
  | zero => intro start k h; simp [waitForConcurrentGcLoop] at h
  | succ n ih =>
    intro start k h
    rw [waitForConcurrentGcLoop] at h
    by_cases hg : gcRunningAt start
    · rw [if_pos hg] at h
      obtain ⟨h1, h2, h3⟩ := ih (start + 1) k h
      refine ⟨h1, le_trans (Nat.le_succ start) h2, ?_⟩
      intro j hj1 hj2
      rcases Nat.eq_or_lt_of_le hj1 with rfl | hlt
      · exact hg
      · exact h3 j hlt hj2
    · rw [if_neg hg] at h
      obtain rfl : start = k := by simpa using h
      exact ⟨by simpa using hg, le_refl start, fun j hj1 hj2 => absurd hj2 (by omega)⟩

/-- C7: whenever `dvmWaitForConcurrentGcToComplete` returns (after `k`
waits), the `gcRunning` flag is false at the moment of return; the loop
re-checks `gcRunning` after every wakeup, so every earlier observation saw
`gcRunning` still true — a spurious wakeup while the flag is true never
causes an early return. -/
theorem waitForConcurrentGc_returns_not_running (gcRunningAt : Nat → Bool)
    (fuel k : Nat)
    (h : dvmWaitForConcurrentGcToComplete gcRunningAt fuel = some k) :
    gcRunningAt k = false ∧ ∀ j, j < k → gcRunningAt j = true := by
  obtain ⟨h1, _, h3⟩ := waitForConcurrentGcLoop_exit gcRunningAt fuel 0 k h
  exact ⟨h1, fun j hj => h3 j (Nat.zero_le j) hj⟩

theorem waitForConcurrentGc_returns_not_running_witness :
    dvmWaitForConcurrentGcToComplete (fun i => i < 2) 10 = some 2 ∧
    ((fun i : Nat => decide (i < 2)) 2 = false ∧
     ∀ j, j < 2 → (fun i : Nat => decide (i < 2)) j = true) :=
  ⟨by decide,
   waitForConcurrentGc_returns_not_running (fun i => i < 2) 10 2 (by decide)⟩

/-! ## Public allocation and the OOM escalator (`dvmMalloc` and `throwOOME`,
Heap.c lines 340-383 and 408-476) -/

/-- A managed exception value: the freshly allocated `OutOfMemoryError`
thrown by `dvmThrowException`, the pre-built stackless `OutOfMemoryError`
(`gDvm.outOfMemoryObj`) installed by `dvmSetException`, or any other
exception a thread might already carry. -/
inductive ExcVal where
  | oomFresh
  | oomPrebuilt
  | otherExc
deriving DecidableEq, Repr

/-- The slice of `Thread` that `throwOOME` reads and writes: whether the
thread is on the thread list (`dvmIsOnThreadList`), its `throwingOOME`
recursion guard, and its pending-exception slot. -/
structure ThreadState where
  onThreadList : Bool
  throwingOOME : Bool
  exception : Option ExcVal
deriving DecidableEq, Repr

/-- `throwOOME` (Heap.c lines 340-383).  The argument is `dvmThreadSelf()`:
`none` models a caller with no `Thread` structure, for which the function
does nothing.  With a thread: if it is on the thread list and not already
throwing an OOME, `throwingOOME` is set, `dvmThrowException` allocates and
sets a fresh `OutOfMemoryError`, and `throwingOOME` is cleared; otherwise
the pre-built stackless `OutOfMemoryError` is stored with
`dvmSetException`, and `throwingOOME` is likewise left `false` by the final
`self->throwingOOME = false`. -/
def throwOOME (self : Option ThreadState) : Option ThreadState :=
  match self with
  | none => none
  | some t =>
    if t.onThreadList ∧ ¬ t.throwingOOME then
      some { t with exception := some ExcVal.oomFresh, throwingOOME := false }
    else
      some { t with exception := some ExcVal.oomPrebuilt, throwingOOME := false }

/-- The allocation flags of `dvmMalloc`: the `ALLOC_FINALIZABLE` and
`ALLOC_DONT_TRACK` bits of the `flags` bitset. -/
structure AllocFlags where
  finalizable : Bool
  dontTrack : Bool
deriving DecidableEq, Repr

/-- The state read and written by `dvmMalloc`: the heap-source collaborator
state, `gcHeap->finalizableRefs`, the tracked-allocation set, and the
calling thread (`none` when `dvmThreadSelf()` is `NULL`). -/
structure VmState (σ : Type) where
  heap : σ
  finalizableRefs : List Ptr
  trackedAllocs : List Ptr
  self : Option ThreadState
deriving DecidableEq

/-- `dvmMalloc` (Heap.c lines 408-476).  `canAppendFinalizable` is the
success of `dvmHeapAddRefToLargeTable` on `finalizableRefs` (HeapTable.c is
not among the sources; per the spec the table is an append-only queue whose
growth can fail).  Result `none` models `dvmAbort()` (no room for more
finalizable objects); otherwise the result carries the returned pointer (or
null) and the post state.  On success with `ALLOC_FINALIZABLE` the pointer
is appended to `finalizableRefs` (still under the heap lock); on success
without `ALLOC_DONT_TRACK` it is added to the tracked-allocation set after
the lock is dropped; on failure `throwOOME` runs after the lock is
dropped.  (The allocation-profiling counters are not modelled.) -/
def dvmMalloc {σ : Type} (hs : HeapSrc σ) (growthLimit : Nat)
    (canAppendFinalizable : Bool) (vm : VmState σ) (size : Nat)
    (flags : AllocFlags) : Option (Option Ptr × VmState σ) :=
  match tryMalloc hs growthLimit vm.heap size with
  | (some ptr, s2, _) =>
    match (if flags.finalizable then
            (if canAppendFinalizable then some (vm.finalizableRefs ++ [ptr])
             else none)
           else some vm.finalizableRefs) with
    | none => none
    | some refs =>
      some (some ptr,
        { heap := s2,
          finalizableRefs := refs,
          trackedAllocs :=
            if flags.dontTrack then vm.trackedAllocs
            else dvmAddTrackedAlloc ptr vm.trackedAllocs,
          self := vm.self })
  | (none, s2, _) =>
      some (none,
        { heap := s2,
          finalizableRefs := vm.finalizableRefs,
          trackedAllocs := vm.trackedAllocs,
          self := throwOOME vm.self })

/-- The original claim C5 is false at this input: with no `Thread`
structure (`dvmThreadSelf() = NULL`, modelled as `self = none`),
`dvmMalloc` returns null after the failed ladder and sets no exception —
`throwOOME` does nothing when there is no thread to attach the error to
(Heap.c line 344). -/
theorem dvmMalloc_oome_counterexample :
    dvmMalloc failingHeapSrc 100 true ⟨0, [], [], none⟩ 8 ⟨false, false⟩ =
      some (none, ⟨6, [], [], none⟩) ∧
    ∀ t : ThreadState,
      VmState.self (⟨6, [], [], none⟩ : VmState Nat) ≠ some t := by
  constructor
  · decide
  · intro t h
    simp at h

/-- C5 (amended): whenever `dvmMalloc` returns null and the calling thread
has a `Thread` structure (`dvmThreadSelf()` non-null), an
`OutOfMemoryError` has been set on it: the freshly thrown one when the
thread is on the thread list and was not already throwing an OOME, and the
pre-built stackless one otherwise (in particular for a thread not yet on
the thread list); with no `Thread` structure no exception is set. -/
theorem dvmMalloc_null_sets_oome {σ : Type} (hs : HeapSrc σ)
    (growthLimit : Nat) (canAppendFinalizable : Bool) (vm : VmState σ)
    (size : Nat) (flags : AllocFlags) (t : ThreadState)
    (hself : vm.self = some t) (vm2 : VmState σ)
    (h : dvmMalloc hs growthLimit canAppendFinalizable vm size flags =
      some (none, vm2)) :
    vm2.self = some
      { t with
        exception := some (if t.onThreadList ∧ ¬ t.throwingOOME
                           then ExcVal.oomFresh else ExcVal.oomPrebuilt),
        throwingOOME := false } := by
  rcases htm : tryMalloc hs growthLimit vm.heap size with ⟨r, s2, evs⟩
  cases r with
  | some p =>
    rw [dvmMalloc, htm] at h
    by_cases hf : flags.finalizable <;>
      by_cases hc : canAppendFinalizable <;> simp [hf, hc] at h
  | none =>
    rw [dvmMalloc, htm] at h
    obtain ⟨-, hvm2⟩ := Prod.mk.injEq .. ▸ (Option.some.injEq .. ▸ h)
    subst hvm2
    simp only [throwOOME, hself]
    split
    · rfl
    · rfl

theorem dvmMalloc_null_sets_oome_witness :
    VmState.self (⟨0, [], [], some ⟨false, false, none⟩⟩ : VmState Nat) =
      some ⟨false, false, none⟩ ∧
    VmState.self
        (⟨6, [], [], some ⟨false, false, some ExcVal.oomPrebuilt⟩⟩ : VmState Nat) =
      some { onThreadList := false, throwingOOME := false,
             exception := some (if (false : Bool) = true ∧ ¬ (false : Bool) = true
                                then ExcVal.oomFresh else ExcVal.oomPrebuilt) } := by
  refine ⟨rfl, ?_⟩
  exact dvmMalloc_null_sets_oome failingHeapSrc 100 true
    ⟨0, [], [], some ⟨false, false, none⟩⟩ 8 ⟨false, false⟩
    ⟨false, false, none⟩ rfl
    ⟨6, [], [], some ⟨false, false, some ExcVal.oomPrebuilt⟩⟩ (by decide)

/-- C6: for every successful allocation whose flags contain
`ALLOC_FINALIZABLE`, the returned pointer has been appended to
`finalizableRefs` in the state `dvmMalloc` returns; and if the append
fails, `dvmMalloc` aborts the process (result `none`) rather than
returning. -/
theorem dvmMalloc_finalizable {σ : Type} (hs : HeapSrc σ) (growthLimit : Nat)
    (canAppendFinalizable : Bool) (vm : VmState σ) (size : Nat)
    (flags : AllocFlags) :
    (∀ ptr vm2,
      dvmMalloc hs growthLimit canAppendFinalizable vm size flags =
        some (some ptr, vm2) →
      flags.finalizable = true →
      vm2.finalizableRefs = vm.finalizableRefs ++ [ptr]) ∧
    (flags.finalizable = true → canAppendFinalizable = false →
      (tryMalloc hs growthLimit vm.heap size).1.isSome = true →
      dvmMalloc hs growthLimit canAppendFinalizable vm size flags = none) := by
  rcases htm : tryMalloc hs growthLimit vm.heap size with ⟨r, s2, evs⟩
  cases r with
  | some p =>
    constructor
    · intro ptr vm2 h hf
      rw [dvmMalloc, htm] at h
      by_cases hc : canAppendFinalizable <;> simp [hf, hc] at h
      obtain ⟨h1, h2⟩ := h
      subst h1
      rw [← h2]
    · intro hf hc _
      rw [dvmMalloc, htm]
      simp [hf, hc]
  | none =>
    constructor
    · intro ptr vm2 h hf
      rw [dvmMalloc, htm] at h
      simp at h
    · intro _ _ habs
      simp at habs

theorem dvmMalloc_finalizable_witness :
    VmState.finalizableRefs (⟨6, [40], [40], none⟩ : VmState Nat) =
      [] ++ [40] :=
  (dvmMalloc_finalizable demoHeapSrc 100 true ⟨5, [], [], none⟩ 4
      ⟨true, false⟩).1 40 ⟨6, [40], [40], none⟩ (by decide) (by decide)

/-! ## The GC driver (`dvmCollectGarbageInternal`, Heap.c lines 529-829) -/

/-- `GcReason` (GC_FOR_MALLOC, GC_CONCURRENT, GC_EXPLICIT). -/
inductive GcReason where
  | forMalloc
  | concurrent
  | explicitGc
deriving DecidableEq, Repr

/-- `GcMode` (GC_PARTIAL scans only the small-object area, GC_FULL scans
everything). -/
inductive GcMode where
  | gcPartialMode
  | gcFullMode
deriving DecidableEq, Repr

/-- `kInvalidPriority` (Heap.c line 30): the sentinel meaning "no saved
thread priority to restore". -/
def kInvalidPriority : Int := 10000

/-- `ANDROID_PRIORITY_NORMAL` from the Android thread-priority scale. -/
def androidPriorityNormal : Int := 0

/-- `ANDROID_PRIORITY_BACKGROUND` from the Android thread-priority scale. -/
def androidPriorityBackground : Int := 10

/-- Subtraction of `u4` (32-bit unsigned) timestamps, as computed by the C
expression `a - b` at type `u4`. -/
def u4sub (a b : Nat) : Nat :=
  (a % 2 ^ 32 + 2 ^ 32 - b % 2 ^ 32) % 2 ^ 32

/-- The per-cycle discovered reference lists
(`softReferences, weakReferences, phantomReferences`). -/
abbrev RefLists := List Ptr × List Ptr × List Ptr

/-- The `gDvm` configuration flags read by the GC driver: `preVerify`,
`postVerify`, `verifyCardTable`, and whether the build has the JIT
(`WITH_JIT`), which compiles in the batched safe-point check. -/
structure GcConfig where
  preVerify : Bool
  postVerify : Bool
  verifyCardTable : Bool
  withJit : Bool
deriving DecidableEq, Repr

/-- The slice of `GcHeap` (plus the collaborator world `ω`) read and
written by `dvmCollectGarbageInternal`: the `gcRunning` reentrancy flag,
the three per-cycle discovered reference lists, the three DDM monitoring
configuration words, and the abstract state `ω` of the heap source,
mark-sweep engine and card table. -/
structure GcHeapState (ω : Type) where
  gcRunning : Bool
  softReferences : List Ptr
  weakReferences : List Ptr
  phantomReferences : List Ptr
  ddmHpifWhen : Nat
  ddmHpsgWhen : Nat
  ddmNhsgWhen : Nat
  world : ω
deriving DecidableEq

/-- Oracle interface for the collaborators of the GC driver, over the
abstract world `ω`.  `beginMarkStep` returns `none` when
`dvmHeapBeginMarkStep` fails (which makes the driver abort).
`scanMarkedObjects`, `reScanMarkedObjects` and `processReferences`
additionally thread the three discovered reference lists, which the C code
communicates through `gcHeap->{soft,weak,phantom}References`.
`sweepUnmarkedObjects` returns `(numObjectsFreed, numBytesFreed)`. -/
structure GcOracle (ω : Type) where
  verifyRootsAndHeap : ω → ω
  beginMarkStep : ω → GcMode → Option ω
  markRootSet : ω → ω
  clearCardTable : ω → ω
  scanMarkedObjects : ω → RefLists → RefLists × ω
  reMarkRootSet : ω → ω
  verifyCardTable : ω → ω
  reScanMarkedObjects : ω → RefLists → RefLists × ω
  processReferences : ω → Bool → RefLists → RefLists × ω
  performSafePointChecks : ω → ω
  sweepSystemWeaks : ω → ω
  swapBitmaps : ω → ω
  sweepUnmarkedObjects : ω → GcMode → Bool → (Nat × Nat) × ω
  finishMarkStep : ω → ω
  growForUtilization : ω → ω
  bytesAllocated : ω → Nat
  footprint : ω → Nat
  scheduleTrim : ω → Nat → ω

/-- One observable side effect of the GC driver, in program order: lock and
thread-registry operations, the calls into the mark-sweep engine and heap
source, priority and scheduling-policy changes, and the DDM dumps. -/
inductive GcEvent where
  | warnRecursiveGc
  | lockWorker
  | suspendAll
  | setSchedFg
  | elevatePriority (oldPrio newPrio : Int)
  | assertWorkerRunning
  | lockWorkerList
  | verifyHeap
  | traceGcBegin
  | beginMark
  | markRoots
  | clearCards
  | unlockHeap
  | resumeAll
  | scanMarked
  | lockHeap
  | reMarkRoots
  | verifyCards
  | reScanMarked
  | processRefs (clearSoft : Bool)
  | safePointChecks
  | sweepSysWeaks
  | swapBitmaps
  | sweepUnmarked (numObjectsFreed numBytesFreed : Nat)
  | finishMark
  | growForUtil
  | scheduleTrim (seconds : Nat)
  | traceGcEnd
  | unlockWorkerList
  | unlockWorker
  | broadcastGcDone
  | restorePriority (prio : Int)
  | setSchedBg
  | sendHeapInfo
  | sendVmHeapSegments
  | sendNativeHeapSegments
deriving DecidableEq, Repr

/-- The pause field(s) of the GC log line: `paused <T>ms` for a
non-concurrent cycle, `paused <R>ms+<D>ms` for a concurrent one. -/
inductive GcPauses where
  | onePause (ms : Nat)
  | twoPauses (rootMs dirtyMs : Nat)
deriving DecidableEq, Repr

/-- The per-cycle GC log line (Heap.c lines 796-815), modelled field by
field: the reason string, whether the freed amount carries the `<` marker
(`isSmall`), the printed freed kilobyte count, the printed allocated and
footprint kilobyte counts, and the pause time(s).  The `<P>%% free`
percentage is computed with `float` arithmetic in the source and is not
modelled. -/
structure GcLogRecord where
  reason : GcReason
  isSmall : Bool
  freedK : Nat
  allocatedK : Nat
  footprintK : Nat
  pauses : GcPauses
deriving DecidableEq, Repr

/-- The log-line computation at the end of `dvmCollectGarbageInternal`
(Heap.c lines 792-816).  In both branches `isSmall` is
`numBytesFreed > 0 && numBytesFreed < 1024` and the freed count is
`numBytesFreed ? MAX(numBytesFreed / 1024, 1) : 0`; a non-concurrent cycle
reports the single pause `dirtyEnd - rootStart`, a concurrent one reports
`rootEnd - rootStart` and `dirtyEnd - dirtyStart`. -/
def gcReport (reason : GcReason)
    (numBytesFreed currAllocated currFootprint : Nat)
    (rootStart rootEnd dirtyStart dirtyEnd : Nat) : GcLogRecord :=
  if reason ≠ GcReason.concurrent then
    { reason := reason,
      isSmall := decide (0 < numBytesFreed ∧ numBytesFreed < 1024),
      freedK := if numBytesFreed ≠ 0 then max (numBytesFreed / 1024) 1 else 0,
      allocatedK := currAllocated / 1024,
      footprintK := currFootprint / 1024,
      pauses := GcPauses.onePause (u4sub dirtyEnd rootStart) }
  else
    { reason := reason,
      isSmall := decide (0 < numBytesFreed ∧ numBytesFreed < 1024),
      freedK := if numBytesFreed ≠ 0 then max (numBytesFreed / 1024) 1 else 0,
      allocatedK := currAllocated / 1024,
      footprintK := currFootprint / 1024,
      pauses := GcPauses.twoPauses (u4sub rootEnd rootStart)
                                   (u4sub dirtyEnd dirtyStart) }

/-- `dvmCollectGarbageInternal` (Heap.c lines 529-829).  Besides the oracle
and the state, the inputs fix the non-deterministic environment of one run:
`clock i` is the value of the `i`-th `dvmGetRelativeTimeMsec()` call,
`priorityResult` is the outcome of `getpriority` (`none` models `errno`
set), `setPriorityOk` whether the `setpriority` elevation succeeds, and
`heapWorkerOk` whether `dvmAssertHeapWorkerThreadRunning` finds the worker
healthy (when it does not, it aborts the VM).  The result is `none` when
the run aborts (`dvmAbort`), else the new state, the event trace, and the
log record (which a recursive entry never reaches). -/
def dvmCollectGarbageInternal {ω : Type} (cfg : GcConfig) (orc : GcOracle ω)
    (clock : Nat → Nat) (priorityResult : Option Int) (setPriorityOk : Bool)
    (heapWorkerOk : Bool) (st : GcHeapState ω) (clearSoftRefs : Bool)
    (reason : GcReason) :
    Option (GcHeapState ω × List GcEvent × Option GcLogRecord) :=
  if st.gcRunning then
    some (st, [GcEvent.warnRecursiveGc], none)
  else
    let gcMode := if reason = GcReason.forMalloc then GcMode.gcPartialMode
                  else GcMode.gcFullMode
    let rootSuspend := clock 0
    let rootStart := clock 1
    let rootSuspendTime := u4sub rootStart rootSuspend
    let prio : Int × List GcEvent :=
      if reason ≠ GcReason.concurrent then
        match priorityResult with
        | none => (kInvalidPriority, [])
        | some p =>
          if androidPriorityNormal < p then
            ((if setPriorityOk then p else kInvalidPriority),
             (if androidPriorityBackground ≤ p then [GcEvent.setSchedFg]
              else []) ++
             (if setPriorityOk then
                [GcEvent.elevatePriority p androidPriorityNormal]
              else []))
          else (kInvalidPriority, [])
      else (kInvalidPriority, [])
    let oldThreadPriority := prio.1
    let prioEvs := prio.2
    if heapWorkerOk = false then
      none
    else
      let w0 := st.world
      let w1 := if cfg.preVerify then orc.verifyRootsAndHeap w0 else w0
      let preVerEvs : List GcEvent :=
        if cfg.preVerify then [GcEvent.verifyHeap] else []
      match orc.beginMarkStep w1 gcMode with
      | none => none
      | some w2 =>
        let w3 := orc.markRootSet w2
        let refs0 : RefLists := ([], [], [])
        let isConc := reason = GcReason.concurrent
        let rootEnd := if isConc then clock 2 else 0
        let w4 := if isConc then orc.clearCardTable w3 else w3
        let concForkEvs : List GcEvent :=
          if isConc then [GcEvent.clearCards, GcEvent.unlockHeap, GcEvent.resumeAll]
          else []
        let scanned := orc.scanMarkedObjects w4 refs0
        let refs1 := scanned.1
        let w5 := scanned.2
        let dirtySuspend := if isConc then clock 3 else 0
        let dirtyStart := if isConc then clock 4 else 0
        let dirtySuspendTime := u4sub dirtyStart dirtySuspend
        let w6 := if isConc then orc.reMarkRootSet w5 else w5
        let w7 := if isConc ∧ cfg.verifyCardTable then orc.verifyCardTable w6 else w6
        let reScanned := if isConc then orc.reScanMarkedObjects w7 refs1
                         else (refs1, w7)
        let refs2 := reScanned.1
        let w8 := reScanned.2
        let concDirtyEvs : List GcEvent :=
          if isConc then
            [GcEvent.lockHeap, GcEvent.suspendAll, GcEvent.reMarkRoots] ++
            (if cfg.verifyCardTable then [GcEvent.verifyCards] else []) ++
            [GcEvent.reScanMarked]
          else []
        let processed := orc.processReferences w8 clearSoftRefs refs2
        let refs3 := processed.1
        let w9 := processed.2
        let jitEvs : List GcEvent :=
          if cfg.withJit then [GcEvent.safePointChecks] else []
        let w10 := if cfg.withJit then orc.performSafePointChecks w9 else w9
        let w11 := orc.sweepSystemWeaks w10
        let w12 := orc.swapBitmaps w11
        let w13 := if cfg.postVerify then orc.verifyRootsAndHeap w12 else w12
        let postVerEvs : List GcEvent :=
          if cfg.postVerify then [GcEvent.verifyHeap] else []
        let dirtyEndConc := if isConc then clock 5 else 0
        let concSweepEvs : List GcEvent :=
          if isConc then [GcEvent.unlockHeap, GcEvent.resumeAll] else []
        let swept := orc.sweepUnmarkedObjects w13 gcMode isConc
        let numObjectsFreed := swept.1.1
        let numBytesFreed := swept.1.2
        let w14 := orc.finishMarkStep swept.2
        let concRelockEvs : List GcEvent :=
          if isConc then [GcEvent.lockHeap] else []
        let w15 := orc.growForUtilization w14
        let currAllocated := orc.bytesAllocated w15
        let currFootprint := orc.footprint w15
        let w16 := orc.scheduleTrim w15 5
        let dirtyEnd := if isConc then dirtyEndConc else clock 2
        let restoreEvs : List GcEvent :=
          if ¬ isConc then
            GcEvent.resumeAll ::
            (if oldThreadPriority ≠ kInvalidPriority then
              [GcEvent.restorePriority oldThreadPriority] ++
              (if androidPriorityBackground ≤ oldThreadPriority then
                [GcEvent.setSchedBg] else [])
            else [])
          else []
        let logRec := gcReport reason numBytesFreed currAllocated currFootprint
                        rootStart rootEnd dirtyStart dirtyEnd
        let ddmEvs : List GcEvent :=
          (if st.ddmHpifWhen ≠ 0 then [GcEvent.sendHeapInfo] else []) ++
          (if st.ddmHpsgWhen ≠ 0 then [GcEvent.sendVmHeapSegments] else []) ++
          (if st.ddmNhsgWhen ≠ 0 then [GcEvent.sendNativeHeapSegments] else [])
        let _ := rootSuspendTime
        let _ := dirtySuspendTime
        let finalState : GcHeapState ω :=
          { gcRunning := false,
            softReferences := refs3.1,
            weakReferences := refs3.2.1,
            phantomReferences := refs3.2.2,
            ddmHpifWhen := st.ddmHpifWhen,
            ddmHpsgWhen := st.ddmHpsgWhen,
            ddmNhsgWhen := st.ddmNhsgWhen,
            world := w16 }
        some (finalState,
          [GcEvent.lockWorker, GcEvent.suspendAll] ++ prioEvs ++
          [GcEvent.assertWorkerRunning, GcEvent.lockWorkerList] ++ preVerEvs ++
          [GcEvent.traceGcBegin, GcEvent.beginMark, GcEvent.markRoots] ++
          concForkEvs ++ [GcEvent.scanMarked] ++ concDirtyEvs ++
          [GcEvent.processRefs clearSoftRefs] ++ jitEvs ++
          [GcEvent.sweepSysWeaks, GcEvent.swapBitmaps] ++ postVerEvs ++
          concSweepEvs ++
          [GcEvent.sweepUnmarked numObjectsFreed numBytesFreed,
           GcEvent.finishMark] ++ concRelockEvs ++
          [GcEvent.growForUtil, GcEvent.scheduleTrim 5,
           GcEvent.traceGcEnd, GcEvent.unlockWorkerList, GcEvent.unlockWorker] ++
          (if isConc then [GcEvent.broadcastGcDone] else []) ++
          restoreEvs ++ ddmEvs,
          some logRec)

/-- A concrete GC-collaborator oracle over the trivial world `Unit`, used
to evaluate the GC driver on closed inputs. -/
def trivialGcOracle : GcOracle Unit where
  verifyRootsAndHeap := fun w => w
  beginMarkStep := fun w _ => some w
  markRootSet := fun w => w
  clearCardTable := fun w => w
  scanMarkedObjects := fun w refs => (refs, w)
  reMarkRootSet := fun w => w
  verifyCardTable := fun w => w
  reScanMarkedObjects := fun w refs => (refs, w)
  processReferences := fun w _ refs => (refs, w)
  performSafePointChecks := fun w => w
  sweepSystemWeaks := fun w => w
  swapBitmaps := fun w => w
  sweepUnmarkedObjects := fun w _ _ => ((0, 0), w)
  finishMarkStep := fun w => w
  growForUtilization := fun w => w
  bytesAllocated := fun _ => 0
  footprint := fun _ => 0
  scheduleTrim := fun w _ => w

/-- C3: if `gcRunning` is already true when `dvmCollectGarbageInternal` is
entered, the call returns immediately after logging the recursive-GC
warning, with the entire heap state unchanged (the returned state is the
input state, so `gcRunning` remains true) and with no other observable
effect: no thread suspension, marking, reference processing, sweeping,
bitmap swap or resize appears in the event trace, and no log record is
produced. -/
theorem collectGarbage_recursive_noop {ω : Type} (cfg : GcConfig)
    (orc : GcOracle ω) (clock : Nat → Nat) (priorityResult : Option Int)
    (setPriorityOk heapWorkerOk : Bool) (st : GcHeapState ω)
    (clearSoftRefs : Bool) (reason : GcReason) (h : st.gcRunning = true) :
    dvmCollectGarbageInternal cfg orc clock priorityResult setPriorityOk
      heapWorkerOk st clearSoftRefs reason =
      some (st, [GcEvent.warnRecursiveGc], none) := by
  rw [dvmCollectGarbageInternal.eq_def, if_pos h]

theorem collectGarbage_recursive_noop_witness :
    GcHeapState.gcRunning
        (⟨true, [], [], [], 0, 0, 0, ()⟩ : GcHeapState Unit) = true ∧
    dvmCollectGarbageInternal ⟨false, false, false, false⟩ trivialGcOracle
        (fun _ => 0) none false true ⟨true, [], [], [], 0, 0, 0, ()⟩ false
        GcReason.explicitGc =
      some (⟨true, [], [], [], 0, 0, 0, ()⟩, [GcEvent.warnRecursiveGc], none) :=
  ⟨rfl,
   collectGarbage_recursive_noop ⟨false, false, false, false⟩ trivialGcOracle
     (fun _ => 0) none false true ⟨true, [], [], [], 0, 0, 0, ()⟩ false
     GcReason.explicitGc rfl⟩

/-- C8: in the per-cycle GC log record, the freed amount carries the `<`
marker with value 1K exactly when `numBytesFreed` is non-zero and strictly
below 1024; it is 0K without the marker when `numBytesFreed` is zero, and
`numBytesFreed / 1024` K without the marker when it is at least 1024 — and
this holds uniformly over the report reason, i.e. in both the single-pause
(non-concurrent) and the two-pause (concurrent) report formats, which are
distinguished only by the pause field. -/
theorem gcReport_freed_field (reason : GcReason)
    (numBytesFreed currAllocated currFootprint : Nat)
    (rootStart rootEnd dirtyStart dirtyEnd : Nat) :
    ((gcReport reason numBytesFreed currAllocated currFootprint
        rootStart rootEnd dirtyStart dirtyEnd).isSmall = true ↔
      0 < numBytesFreed ∧ numBytesFreed < 1024) ∧
    (0 < numBytesFreed → numBytesFreed < 1024 →
      (gcReport reason numBytesFreed currAllocated currFootprint
        rootStart rootEnd dirtyStart dirtyEnd).freedK = 1) ∧
    (numBytesFreed = 0 →
      (gcReport reason numBytesFreed currAllocated currFootprint
        rootStart rootEnd dirtyStart dirtyEnd).isSmall = false ∧
      (gcReport reason numBytesFreed currAllocated currFootprint
        rootStart rootEnd dirtyStart dirtyEnd).freedK = 0) ∧
    (1024 ≤ numBytesFreed →
      (gcReport reason numBytesFreed currAllocated currFootprint
        rootStart rootEnd dirtyStart dirtyEnd).isSmall = false ∧
      (gcReport reason numBytesFreed currAllocated currFootprint
        rootStart rootEnd dirtyStart dirtyEnd).freedK = numBytesFreed / 1024) ∧
    ((gcReport reason numBytesFreed currAllocated currFootprint
        rootStart rootEnd dirtyStart dirtyEnd).pauses =
        GcPauses.twoPauses (u4sub rootEnd rootStart) (u4sub dirtyEnd dirtyStart) ↔
      reason = GcReason.concurrent) := by
  refine ⟨?_, ?_, ?_, ?_, ?_⟩
  · by_cases hr : reason = GcReason.concurrent <;> simp [gcReport, hr]
  · intro hb1 hb2
    have h0 : numBytesFreed / 1024 = 0 := Nat.div_eq_of_lt hb2
    by_cases hr : reason = GcReason.concurrent <;>
      simp [gcReport, hr, hb1.ne', h0]
  · intro hb
    subst hb
    by_cases hr : reason = GcReason.concurrent <;> simp [gcReport, hr]
  · intro hb
    have hne : numBytesFreed ≠ 0 := by omega
    have hnl : ¬ numBytesFreed < 1024 := by omega
    have hmax : max (numBytesFreed / 1024) 1 = numBytesFreed / 1024 :=
      Nat.max_eq_left ((Nat.one_le_div_iff (by norm_num)).mpr hb)
    by_cases hr : reason = GcReason.concurrent <;>
      simp [gcReport, hr, hne, hnl, hmax]
  · by_cases hr : reason = GcReason.concurrent <;> simp [gcReport, hr]

theorem gcReport_freed_field_witness :
    (0 : Nat) < 100 ∧ (100 : Nat) < 1024 ∧
    (gcReport GcReason.forMalloc 100 2048 4096 10 0 0 15).freedK = 1 ∧
    (gcReport GcReason.forMalloc 100 2048 4096 10 0 0 15).isSmall = true :=
  ⟨by decide, by decide,
   (gcReport_freed_field GcReason.forMalloc 100 2048 4096 10 0 0 15).2.1
     (by decide) (by decide),
   (gcReport_freed_field GcReason.forMalloc 100 2048 4096 10 0 0 15).1.mpr
     (by decide)⟩

end Dalvik
